import Mathlib

/-!
Verification development for the rcgen X.509 certificate generation library
(`src/src/lib.rs`). The ASN.1 DER writer (the yasna crate) and the crypto
provider (the ring crate) are external collaborators: writer primitives are
modelled byte-exactly from standard DER rules as the spec describes them,
and digesting/signing are modelled as abstract function fields.

Bytes are modelled as `List Nat` (each entry a value below 256).
-/

/-- Big-endian base-256 digits of a natural number; empty for 0. -/
def natBytesBE (n : Nat) : List Nat :=
  if h : n = 0 then []
  else
    have : n / 256 < n := Nat.div_lt_self (Nat.pos_of_ne_zero h) (by omega)
    natBytesBE (n / 256) ++ [n % 256]

/-- DER definite-length octets: short form below 128, long form otherwise. -/
def lenBytes (n : Nat) : List Nat :=
  if n < 128 then [n]
  else (128 + (natBytesBE n).length) :: natBytesBE n

/-- Minimal DER INTEGER content octets for an unsigned value
(leading zero octet added when the top bit is set). -/
def intBytesVal (n : Nat) : List Nat :=
  match natBytesBE n with
  | [] => [0]
  | b :: bs => if 128 ≤ b then 0 :: b :: bs else b :: bs

/-- Big-endian base-128 digits of a natural number; `[0]` for 0. -/
def nat128DigitsBE (n : Nat) : List Nat :=
  if h : n < 128 then [n]
  else
    have : n / 128 < n := Nat.div_lt_self (by omega) (by omega)
    nat128DigitsBE (n / 128) ++ [n % 128]

/-- Set the continuation bit on every base-128 digit except the last. -/
def markCont : List Nat → List Nat
  | [] => []
  | [d] => [d]
  | d :: ds => (d + 128) :: markCont ds

/-- Base-128 encoding of one OID subidentifier, continuation bits included. -/
def base128 (n : Nat) : List Nat := markCont (nat128DigitsBE n)

/-- DER content octets of an OBJECT IDENTIFIER given its components
(the first two components are packed into one subidentifier). -/
def oidDerBytes (cs : List Nat) : List Nat :=
  match cs with
  | c0 :: c1 :: rest => base128 (40 * c0 + c1) ++ (rest.map base128).flatten
  | _ => []

/-- UTF-8 encoding of one character as byte values. -/
def utf8CharBytes (c : Char) : List Nat :=
  let n := c.toNat
  if n < 128 then [n]
  else if n < 2048 then [192 + n / 64, 128 + n % 64]
  else if n < 65536 then [224 + n / 4096, 128 + (n / 64) % 64, 128 + n % 64]
  else [240 + n / 262144, 128 + (n / 4096) % 64, 128 + (n / 64) % 64, 128 + n % 64]

/-- UTF-8 bytes of a string. -/
def strBytes (s : String) : List Nat := (s.data.map utf8CharBytes).flatten

/-- One tag-length-value DER record. -/
def tlv (tag : Nat) (content : List Nat) : List Nat :=
  tag :: (lenBytes content.length ++ content)

/-- Shallow embedding of the sequence of calls the source makes on the yasna
`DERWriter`: one constructor per writer primitive the source uses. -/
inductive DerValue where
  /-- `write_sequence` -/
  | seq (xs : List DerValue)
  /-- `write_set` -/
  | set (xs : List DerValue)
  /-- `write_oid`, by components -/
  | oid (cs : List Nat)
  /-- `write_utf8_string`, holding the UTF-8 bytes -/
  | utf8 (bs : List Nat)
  /-- `write_u8` / `write_u64` (unsigned INTEGER) -/
  | int (n : Nat)
  /-- `write_bool` -/
  | boolean (b : Bool)
  /-- `write_bytes` (OCTET STRING) -/
  | octets (bs : List Nat)
  /-- `write_bitvec` on `BitVec::from_bytes` (BIT STRING, zero unused bits) -/
  | bitstr (bs : List Nat)
  /-- `write_null` -/
  | null
  /-- `write_generalized_time`, holding the content bytes -/
  | gentime (bs : List Nat)
  /-- `write_tagged` with a context tag (explicit tagging) -/
  | tagged (t : Nat) (inner : DerValue)
  /-- `write_tagged_implicit` with a context tag -/
  | taggedImplicit (t : Nat) (inner : DerValue)
  /-- `write_der`: splice already-encoded DER verbatim -/
  | raw (bs : List Nat)

/-- Whether a value is encoded in constructed form (sets the tag bit 0x20). -/
def DerValue.isConstructed : DerValue → Bool
  | .seq _ => true
  | .set _ => true
  | .tagged _ _ => true
  | _ => false

mutual

/-- DER encoding of one embedded writer value, per standard DER
(definite length, minimal encoding) as the spec describes the writer. -/
def encode : DerValue → List Nat
  | .seq xs => tlv 48 (encodeList xs)
  | .set xs => tlv 49 (encodeList xs)
  | .oid cs => tlv 6 (oidDerBytes cs)
  | .utf8 bs => tlv 12 bs
  | .int n => tlv 2 (intBytesVal n)
  | .boolean b => tlv 1 [if b then 255 else 0]
  | .octets bs => tlv 4 bs
  | .bitstr bs => tlv 3 (0 :: bs)
  | .null => tlv 5 []
  | .gentime bs => tlv 24 bs
  | .tagged t x => tlv (160 + t) (encode x)
  | .taggedImplicit t x =>
    match encode x with
    | [] => []
    | _ :: rest => (128 + (if x.isConstructed then 32 else 0) + t) :: rest
  | .raw bs => bs

/-- Concatenated DER encodings of a list of values. -/
def encodeList : List DerValue → List Nat
  | [] => []
  | x :: xs => encode x ++ encodeList xs

end

/-! ## Time handling

`chrono::DateTime<Utc>` is modelled by its calendar components. Following
chrono, the `nanosecond` component ranges over `0 ..= 1_999_999_999`; a value
at or above `1_000_000_000` marks an inserted leap second. -/

/-- Model of `chrono::DateTime<Utc>` (also used for yasna's
`GeneralizedTime`, whose stored datetime is all the source ever sets). -/
structure DateTimeUtc where
  year : Nat
  month : Nat
  day : Nat
  hour : Nat
  minute : Nat
  second : Nat
  nanosecond : Nat
deriving DecidableEq, Repr

/-- Embeds `dt_to_generalized` (src/src/lib.rs lines 296-309): the
nanosecond component is replaced by `1_000_000` when it is at least
`1_000_000`, and by `0` otherwise; the result is handed to
`GeneralizedTime::from_datetime`. -/
def dt_to_generalized (dt : DateTimeUtc) : DateTimeUtc :=
  let nanos := if 1000000 ≤ dt.nanosecond then 1000000 else 0
  { dt with nanosecond := nanos }

/-- ASCII decimal digits of a natural number. -/
def decDigits (n : Nat) : List Nat := (Nat.toDigits 10 n).map Char.toNat

/-- ASCII decimal digits, zero-padded on the left to the given width. -/
def padDigits (w n : Nat) : List Nat :=
  List.replicate (w - (decDigits n).length) 48 ++ decDigits n

/-- Drop trailing ASCII zero digits. -/
def stripZeros (ds : List Nat) : List Nat :=
  (ds.reverse.dropWhile (fun d => d == 48)).reverse

/-- Modelled from the spec: the GeneralizedTime DER serializer of the
external ASN.1 writer collaborator (the yasna crate, out of scope of the
source). Per the spec and the source comment in `dt_to_generalized`, the
serializer "would otherwise output fractional values": it writes
`YYYYMMDDHHMMSS`, then a `.`-prefixed fractional-seconds suffix whenever
the sub-second part (the nanosecond component taken below one second;
values at or above `10^9` mark a leap second and raise the seconds digit)
is nonzero, then `Z`. -/
def generalized_time_content (g : DateTimeUtc) : List Nat :=
  let leap := if 1000000000 ≤ g.nanosecond then 1 else 0
  let frac := g.nanosecond % 1000000000
  padDigits 4 g.year ++ padDigits 2 g.month ++ padDigits 2 g.day ++
  padDigits 2 g.hour ++ padDigits 2 g.minute ++ padDigits 2 (g.second + leap) ++
  (if frac = 0 then [] else 46 :: stripZeros (padDigits 9 frac)) ++ [90]

/-! ## Data model (src/src/lib.rs lines 96-294 and 559-757)

Digesting and signing are operations of the external ring crate; they are
modelled as abstract function fields over byte lists. -/

/-- `pkcs-9-at-extensionRequest` (source line 97). -/
def OID_PKCS_9_AT_EXTENSION_REQUEST : List Nat := [1, 2, 840, 113549, 1, 9, 14]

/-- `id-at-countryName` (source line 100). -/
def OID_COUNTRY_NAME : List Nat := [2, 5, 4, 6]

/-- `id-at-organizationName` (source line 102). -/
def OID_ORG_NAME : List Nat := [2, 5, 4, 10]

/-- `id-at-commonName` (source line 104). -/
def OID_COMMON_NAME : List Nat := [2, 5, 4, 3]

/-- subjectAltName extension OID (source line 116). -/
def OID_SUBJECT_ALT_NAME : List Nat := [2, 5, 29, 17]

/-- basicConstraints extension OID (source line 119). -/
def OID_BASIC_CONSTRAINTS : List Nat := [2, 5, 29, 19]

/-- subjectKeyIdentifier extension OID (source line 122). -/
def OID_SUBJECT_KEY_IDENTIFIER : List Nat := [2, 5, 29, 14]

/-- `id-pe-acmeIdentifier` (source line 126). -/
def OID_PE_ACME : List Nat := [1, 3, 6, 1, 5, 5, 7, 1, 31]

/-- The attribute type of a distinguished name entry (source lines 128-137).
The hidden `_Nonexhaustive` marker variant is unconstructible by design
(its `to_oid` is `unimplemented!()`) and is not modelled. -/
inductive DnType where
  | CountryName
  | OrganizationName
  | CommonName
deriving DecidableEq, Repr

/-- `DnType::to_oid` (source lines 140-148). -/
def DnType.to_oid : DnType → List Nat
  | .CountryName => OID_COUNTRY_NAME
  | .OrganizationName => OID_ORG_NAME
  | .CommonName => OID_COMMON_NAME

/-- `DistinguishedName` (source lines 160-162): a map from attribute type to
value. The backing `HashMap` is modelled by its entry list in the map's
iteration order. -/
structure DistinguishedName where
  entries : List (DnType × String)
deriving DecidableEq, Repr

/-- `BasicConstraints` (source lines 228-233). -/
inductive BasicConstraints where
  | Unconstrained
  | Constrained (n : Nat)
deriving DecidableEq, Repr

/-- `IsCa` (source lines 217-222). -/
inductive IsCa where
  | SelfSignedOnly
  | Ca (c : BasicConstraints)
deriving DecidableEq, Repr

/-- `CustomExtension` (source lines 247-251). -/
structure CustomExtension where
  oid : List Nat
  critical : Bool
  content : List Nat
deriving DecidableEq, Repr

/-- `CustomExtension::new_acme_identifier` (source lines 258-268). The
source asserts that `sha_digest` holds exactly 32 bytes and panics
otherwise; the panic is modelled as `none`. -/
def CustomExtension.new_acme_identifier (sha_digest : List Nat) : Option CustomExtension :=
  if sha_digest.length = 32 then
    some { oid := OID_PE_ACME, critical := true,
           content := encode (.octets sha_digest) }
  else
    none

/-- `SignAlgo` (source lines 559-563), with the ring algorithm references
reduced to the family tag. -/
inductive SignAlgo where
  | EcDsa
  | EdDsa
  | Rsa
deriving DecidableEq, Repr

/-- `SignatureAlgorithm` (source lines 681-687). The ring digest algorithm
is modelled as the digest function itself. -/
structure SignatureAlgorithm where
  oids_sign_alg : List (List Nat)
  sign_alg : SignAlgo
  digest_alg : List Nat → List Nat
  oid_components : List Nat
  write_null_params : Bool

/-- `SignatureAlgorithm::write_alg_ident` (source lines 739-746). -/
def SignatureAlgorithm.write_alg_ident (alg : SignatureAlgorithm) : DerValue :=
  .seq ([.oid alg.oid_components] ++
    (if alg.write_null_params then [.null] else []))

/-- `SignatureAlgorithm::write_oids_sign_alg` (source lines 747-757). -/
def SignatureAlgorithm.write_oids_sign_alg (alg : SignatureAlgorithm) : DerValue :=
  .seq (alg.oids_sign_alg.map DerValue.oid ++
    (if alg.write_null_params then [.null] else []))

/-- A held key pair (source lines 566-573 and 629-659): the ring signing
handle is modelled by the raw public key bytes it exposes and its signing
function (the byte buffer written into the signature BIT STRING), plus the
retained PKCS#8 serialization. -/
structure KeyPair where
  public_key : List Nat
  sign : List Nat → List Nat
  pkcs8 : List Nat

/-- `CertificateParams` (source lines 179-192). The `key_pair` option is
resolved at `Certificate::from_params` time; the claims under scrutiny all
start from a constructed `Certificate`, so the resolved pair lives in
`Certificate` below. -/
structure CertificateParams where
  alg : SignatureAlgorithm
  not_before : DateTimeUtc
  not_after : DateTimeUtc
  serial_number : Option Nat
  subject_alt_names : List String
  distinguished_name : DistinguishedName
  is_ca : IsCa
  custom_extensions : List CustomExtension

/-- `Certificate` (source lines 57-60). -/
structure Certificate where
  params : CertificateParams
  key_pair : KeyPair

/-! ## Writers (src/src/lib.rs lines 311-520)

Each writer method is embedded as one definition producing the `DerValue`
the corresponding sequence of `DERWriter` calls emits. -/

/-- `Certificate::write_name` (source lines 325-336): one outer SEQUENCE
holding a single SET, inside which the loop writes one
SEQUENCE(type OID, value UTF8String) per entry of `ca`'s distinguished
name, in the map's iteration order. -/
def Certificate.write_name (_self ca : Certificate) : DerValue :=
  .seq [.set (ca.params.distinguished_name.entries.map (fun tc =>
    .seq [.oid tc.1.to_oid, .utf8 (strBytes tc.2)]))]

/-- `Certificate::write_request` (source lines 337-388): the PKCS#10
certification request info body. -/
def Certificate.write_request (self : Certificate) : DerValue :=
  .seq [
    .int 0,
    .seq (self.params.distinguished_name.entries.map (fun tc =>
      .set [.seq [.oid tc.1.to_oid, .utf8 (strBytes tc.2)]])),
    .seq [self.params.alg.write_oids_sign_alg,
          .bitstr self.key_pair.public_key],
    .tagged 0 (.seq [
      .oid OID_PKCS_9_AT_EXTENSION_REQUEST,
      .set [.seq [
        .seq [.oid OID_SUBJECT_ALT_NAME,
          .octets (encode (.seq (self.params.subject_alt_names.map (fun san =>
            .taggedImplicit 2 (.utf8 (strBytes san))))))]]]])]

/-- `Certificate::write_cert` (source lines 389-480): the to-be-signed
certificate body, with `ca` supplying the issuer name. -/
def Certificate.write_cert (self ca : Certificate) : DerValue :=
  .seq [
    .tagged 0 (.int 2),
    .int (self.params.serial_number.getD 42),
    self.params.alg.write_alg_ident,
    self.write_name ca,
    .seq [.gentime (generalized_time_content (dt_to_generalized self.params.not_before)),
          .gentime (generalized_time_content (dt_to_generalized self.params.not_after))],
    self.write_name self,
    .seq [self.params.alg.write_oids_sign_alg,
          .bitstr self.key_pair.public_key],
    .tagged 3 (.seq (
      .seq [.oid OID_SUBJECT_ALT_NAME,
        .octets (encode (.seq (self.params.subject_alt_names.map (fun san =>
          .taggedImplicit 2 (.utf8 (strBytes san))))))] ::
      ((match self.params.is_ca with
        | IsCa.Ca constraint =>
          [.seq [.oid OID_SUBJECT_KEY_IDENTIFIER,
                 .octets (self.params.alg.digest_alg self.key_pair.public_key)],
           .seq [.oid OID_BASIC_CONSTRAINTS,
                 .octets (encode (.seq (.boolean true ::
                   (match constraint with
                    | BasicConstraints.Constrained path_len => [.int path_len]
                    | BasicConstraints.Unconstrained => []))))]]
        | IsCa.SelfSignedOnly => []) ++
       self.params.custom_extensions.map (fun ext =>
        .seq (.oid ext.oid ::
          ((if ext.critical then [.boolean true] else []) ++
           [.octets ext.content]))))))]

/-- `Certificate::serialize_der_with_signer` (source lines 486-503):
DER-construct the TBS body to bytes, then emit
SEQUENCE(spliced TBS bytes, signatureAlgorithm, BIT STRING signature)
where the signature is `ca`'s key applied to the TBS bytes. -/
def Certificate.serialize_der_with_signer (self ca : Certificate) : List Nat :=
  let tbs_cert_list_serialized := encode (self.write_cert ca)
  encode (.seq [
    .raw tbs_cert_list_serialized,
    self.params.alg.write_alg_ident,
    .bitstr (ca.key_pair.sign tbs_cert_list_serialized)])

/-- `Certificate::serialize_der` (source lines 482-484). -/
def Certificate.serialize_der (self : Certificate) : List Nat :=
  self.serialize_der_with_signer self

/-- `Certificate::serialize_request_der` (source lines 505-520). -/
def Certificate.serialize_request_der (self : Certificate) : List Nat :=
  let cert_data := encode self.write_request
  encode (.seq [
    .raw cert_data,
    self.params.alg.write_alg_ident,
    .bitstr (self.key_pair.sign cert_data)])

/-! ## Key pair import (src/src/lib.rs lines 585-602) -/

/-- `KeyPair`'s variant set as produced by import (source lines 566-573),
over abstract ring key handle types for the three families. -/
inductive KeyPairOf (α β γ : Type) where
  | EcKp (kp : β) (pkcs8 : List Nat)
  | EdKp (kp : α) (pkcs8 : List Nat)
  | Rsa (kp : γ) (pkcs8 : List Nat)
deriving DecidableEq, Repr

/-- `impl From<&[u8]> for KeyPair` (source lines 585-602). The four ring
PKCS#8 parsers are external collaborators and enter as function arguments
(`ed`: `Ed25519KeyPair::from_pkcs8_maybe_unchecked`; `p256` / `p384`:
`EcdsaKeyPair::from_pkcs8` for the two curves; `rsa`:
`RsaKeyPair::from_pkcs8`); the terminal `panic!` is modelled as `.error`. -/
def keypair_from_pkcs8 {α β γ : Type}
    (ed : List Nat → Option α) (p256 : List Nat → Option β)
    (p384 : List Nat → Option β) (rsa : List Nat → Option γ)
    (pkcs8 : List Nat) : Except String (KeyPairOf α β γ) :=
  match ed pkcs8 with
  | some edkp => .ok (.EdKp edkp pkcs8)
  | none =>
    match p256 pkcs8 with
    | some eckp => .ok (.EcKp eckp pkcs8)
    | none =>
      match p384 pkcs8 with
      | some eckp => .ok (.EcKp eckp pkcs8)
      | none =>
        match rsa pkcs8 with
        | some rsakp => .ok (.Rsa rsakp pkcs8)
        | none => .error "Could not parse key pair"

/-! ## Accessors over the produced structures

These projections read components back out of the embedded writer output;
they are analysis tools, not translations of source code. -/

/-- The issuer Name (field 4) of a TBS certificate. -/
def issuerOf : DerValue → DerValue
  | .seq [_, _, _, i, _, _, _, _] => i
  | _ => .null

/-- The subject Name (field 6) of a TBS certificate. -/
def subjectOf : DerValue → DerValue
  | .seq [_, _, _, _, _, s, _, _] => s
  | _ => .null

/-- The subjectPublicKeyInfo (field 7) of a TBS certificate. -/
def spkiOf : DerValue → DerValue
  | .seq [_, _, _, _, _, _, k, _] => k
  | _ => .null

/-- The inner signature AlgorithmIdentifier (field 3) of a TBS certificate. -/
def tbsAlgIdentOf : DerValue → DerValue
  | .seq [_, _, a, _, _, _, _, _] => a
  | _ => .null

/-- The content bytes of the two validity GeneralizedTime values (field 5)
of a TBS certificate. -/
def validityBytesOf : DerValue → List (List Nat)
  | .seq [_, _, _, _, .seq [.gentime b1, .gentime b2], _, _, _] => [b1, b2]
  | _ => []

/-- The extension list (inside the context-tag-3 wrapper, field 8) of a
TBS certificate. -/
def extensionsOf : DerValue → List DerValue
  | .seq [_, _, _, _, _, _, _, .tagged 3 (.seq exts)] => exts
  | _ => []

/-- The subject Name (field 2) of a CSR info body. -/
def csrSubjectOf : DerValue → DerValue
  | .seq [_, n, _, _] => n
  | _ => .null

/-- The attribute inside the context-tag-0 wrapper (field 4) of a CSR
info body. -/
def csrAttributeOf : DerValue → DerValue
  | .seq [_, _, _, .tagged 0 a] => a
  | _ => .null

/-- The Name shape the spec's words describe for all three Name positions
(issuer, subject, CSR subject): a SEQUENCE with one SET per
distinguished-name entry, each SET holding one
SEQUENCE(attributeType OID, attributeValue UTF8String), in the map's
entry order. Stated from the spec for comparison against the source's
`Certificate.write_name`. -/
def name_one_set_per_entry (dn : DistinguishedName) : DerValue :=
  .seq (dn.entries.map (fun tc =>
    .set [.seq [.oid tc.1.to_oid, .utf8 (strBytes tc.2)]]))

/-! ## Concrete values for counterexamples and witnesses -/

/-- A concrete ECDSA-P256-shaped algorithm entry with stand-in crypto. -/
def demoAlg : SignatureAlgorithm :=
  { oids_sign_alg := [[1, 2, 840, 10045, 2, 1], [1, 2, 840, 10045, 3, 1, 7]],
    sign_alg := .EcDsa,
    digest_alg := fun _ => [1],
    oid_components := [1, 2, 840, 10045, 4, 3, 2],
    write_null_params := false }

/-- A concrete RSA-shaped algorithm entry with stand-in crypto. -/
def demoAlg2 : SignatureAlgorithm :=
  { oids_sign_alg := [[1, 2, 840, 113549, 1, 1, 1]],
    sign_alg := .Rsa,
    digest_alg := fun _ => [2],
    oid_components := [1, 2, 840, 113549, 1, 1, 11],
    write_null_params := true }

/-- A concrete key pair with stand-in crypto. -/
def kpDemo : KeyPair :=
  { public_key := [4, 1, 2], sign := fun m => [m.length % 256], pkcs8 := [48] }

/-- A timestamp whose nanosecond component is 5 ms. -/
def dtFrac : DateTimeUtc := ⟨2019, 1, 1, 0, 0, 0, 5000000⟩

/-- A two-entry distinguished name. -/
def dnTwo : DistinguishedName :=
  ⟨[(DnType.CommonName, "a"), (DnType.OrganizationName, "b")]⟩

/-- Concrete certificate parameters. -/
def demoParams : CertificateParams :=
  { alg := demoAlg,
    not_before := dtFrac,
    not_after := ⟨2020, 1, 1, 0, 0, 0, 0⟩,
    serial_number := none,
    subject_alt_names := ["localhost"],
    distinguished_name := dnTwo,
    is_ca := .SelfSignedOnly,
    custom_extensions := [] }

/-- A concrete certificate. -/
def certDemo : Certificate := ⟨demoParams, kpDemo⟩

/-- The same certificate with a different declared algorithm but the same
distinguished name and key pair. -/
def certDemoB : Certificate := ⟨{ demoParams with alg := demoAlg2 }, kpDemo⟩

/-! ## Theorems -/

/-- An explicit context tag 0 around one value is byte-identical to an
implicit context tag 0 on a SET holding exactly that value: the source's
`write_tagged(Tag::context(0), attribute)` therefore encodes the PKCS#10
`attributes` as an implicitly tagged SET containing that single attribute. -/
theorem tagged_zero_eq_implicit_set (x : DerValue) :
    encode (.tagged 0 x) = encode (.taggedImplicit 0 (.set [x])) := by
  simp [encode, encodeList, tlv, DerValue.isConstructed]

/-- C1: `serialize_der_with_signer(ca)` emits
SEQUENCE(tbsCertificate, signatureAlgorithmIdentifier, BIT STRING sig)
where the TBS bytes are spliced verbatim, the signature is `ca`'s key
applied to exactly those TBS bytes, the TBS issuer Name is built from
`ca`'s distinguished name, the TBS subject Name and subjectPublicKeyInfo
come from the leaf certificate itself, and `serialize_der()` is
`serialize_der_with_signer(self)`. -/
theorem serialize_der_with_signer_spec (self ca : Certificate) :
    Certificate.serialize_der_with_signer self ca =
      encode (.seq [
        .raw (encode (Certificate.write_cert self ca)),
        self.params.alg.write_alg_ident,
        .bitstr (ca.key_pair.sign (encode (Certificate.write_cert self ca)))]) ∧
    issuerOf (Certificate.write_cert self ca) =
      .seq [.set (ca.params.distinguished_name.entries.map (fun tc =>
        .seq [.oid tc.1.to_oid, .utf8 (strBytes tc.2)]))] ∧
    subjectOf (Certificate.write_cert self ca) =
      .seq [.set (self.params.distinguished_name.entries.map (fun tc =>
        .seq [.oid tc.1.to_oid, .utf8 (strBytes tc.2)]))] ∧
    spkiOf (Certificate.write_cert self ca) =
      .seq [self.params.alg.write_oids_sign_alg,
            .bitstr self.key_pair.public_key] ∧
    Certificate.serialize_der self = Certificate.serialize_der_with_signer self self :=
  ⟨rfl, rfl, rfl, rfl, rfl⟩

/-- C2 counterexample: for a two-entry distinguished name the certificate
Name writer does not produce the one-SET-per-entry shape the claim states
for all three Name positions — it emits a single SET holding both
entries. -/
theorem name_shape_counterexample :
    Certificate.write_name certDemo certDemo ≠
      name_one_set_per_entry certDemo.params.distinguished_name := by
  simp [Certificate.write_name, name_one_set_per_entry, certDemo, demoParams, dnTwo]

/-- C2 amended: the CSR subject Name is a SEQUENCE with one SET per
distinguished-name entry (n SETs for n entries, map order), but the
certificate issuer and subject Name positions instead wrap all entries in
a single SET (one inner SEQUENCE(attributeType OID, attributeValue
UTF8String) per entry, map order); the three positions share the leaf
shape but not the one-SET-per-entry layout. -/
theorem name_shapes_spec (self ca : Certificate) :
    Certificate.write_name self ca =
      .seq [.set (ca.params.distinguished_name.entries.map (fun tc =>
        .seq [.oid tc.1.to_oid, .utf8 (strBytes tc.2)]))] ∧
    csrSubjectOf (Certificate.write_request self) =
      .seq (self.params.distinguished_name.entries.map (fun tc =>
        .set [.seq [.oid tc.1.to_oid, .utf8 (strBytes tc.2)]])) ∧
    (self.params.distinguished_name.entries.map (fun tc =>
      (DerValue.set [.seq [.oid tc.1.to_oid, .utf8 (strBytes tc.2)]]))).length =
      self.params.distinguished_name.entries.length :=
  ⟨rfl, rfl, by simp⟩

/-- C3: evaluation at the failing input. For a timestamp whose nanosecond
component is 5 ms, `dt_to_generalized` collapses it to exactly 1 ms (as
the claim's first half states), but the serialized validity
GeneralizedTime then carries the fractional-second suffix `.001` —
ASCII `.` is byte 46 — contradicting the claim's guarantee (and the
source's own comment, which intends the kept value to be one leap second,
i.e. chrono's `1_000_000_000`-nanosecond marker, not one millisecond). -/
theorem generalized_time_fraction_bug :
    (dt_to_generalized dtFrac).nanosecond = 1000000 ∧
    generalized_time_content (dt_to_generalized dtFrac) =
      strBytes "20190101000000.001Z" ∧
    46 ∈ generalized_time_content (dt_to_generalized dtFrac) ∧
    validityBytesOf (Certificate.write_cert certDemo certDemo) =
      [strBytes "20190101000000.001Z", strBytes "20200101000000Z"] := by
  refine ⟨rfl, by decide, by decide, by decide⟩

/-- C4: `serialize_request_der` emits
SEQUENCE(certificationRequestInfo, signatureAlgorithmIdentifier,
BIT STRING signature) signed with the requester's own key; the CSR info
body is SEQUENCE(version 0, subject Name, subjectPublicKeyInfo,
context-tag 0 holding the attributes — byte-identical to an implicitly
tagged SET holding the single attribute) and the single attribute is
extensionRequest (OID 1.2.840.113549.1.9.14) whose value is a SET holding
one SEQUENCE of requested extensions, the only one being Subject
Alternative Name. -/
theorem serialize_request_der_spec (self : Certificate) :
    Certificate.serialize_request_der self =
      encode (.seq [
        .raw (encode (Certificate.write_request self)),
        self.params.alg.write_alg_ident,
        .bitstr (self.key_pair.sign (encode (Certificate.write_request self)))]) ∧
    Certificate.write_request self =
      .seq [
        .int 0,
        csrSubjectOf (Certificate.write_request self),
        .seq [self.params.alg.write_oids_sign_alg,
              .bitstr self.key_pair.public_key],
        .tagged 0 (csrAttributeOf (Certificate.write_request self))] ∧
    csrAttributeOf (Certificate.write_request self) =
      .seq [
        .oid [1, 2, 840, 113549, 1, 9, 14],
        .set [.seq [
          .seq [.oid [2, 5, 29, 17],
            .octets (encode (.seq (self.params.subject_alt_names.map (fun san =>
              .taggedImplicit 2 (.utf8 (strBytes san))))))]]]] ∧
    encode (.tagged 0 (csrAttributeOf (Certificate.write_request self))) =
      encode (.taggedImplicit 0 (.set [csrAttributeOf (Certificate.write_request self)])) :=
  ⟨rfl, rfl, rfl, tagged_zero_eq_implicit_set _⟩

/-- C5: key-pair import tries the four parsers in the fixed order
Ed25519, ECDSA P-256, ECDSA P-384, RSA; the first successful parse
determines the resulting variant, and when all four fail the import
produces an unparseable-key error and no key pair. -/
theorem keypair_import_order {α β γ : Type}
    (ed : List Nat → Option α) (p256 p384 : List Nat → Option β)
    (rsa : List Nat → Option γ) (pkcs8 : List Nat) :
    (∀ k, ed pkcs8 = some k →
      keypair_from_pkcs8 ed p256 p384 rsa pkcs8 = .ok (.EdKp k pkcs8)) ∧
    (∀ k, ed pkcs8 = none → p256 pkcs8 = some k →
      keypair_from_pkcs8 ed p256 p384 rsa pkcs8 = .ok (.EcKp k pkcs8)) ∧
    (∀ k, ed pkcs8 = none → p256 pkcs8 = none → p384 pkcs8 = some k →
      keypair_from_pkcs8 ed p256 p384 rsa pkcs8 = .ok (.EcKp k pkcs8)) ∧
    (∀ k, ed pkcs8 = none → p256 pkcs8 = none → p384 pkcs8 = none →
      rsa pkcs8 = some k →
      keypair_from_pkcs8 ed p256 p384 rsa pkcs8 = .ok (.Rsa k pkcs8)) ∧
    (ed pkcs8 = none → p256 pkcs8 = none → p384 pkcs8 = none →
      rsa pkcs8 = none →
      keypair_from_pkcs8 ed p256 p384 rsa pkcs8 = .error "Could not parse key pair") := by
  refine ⟨?_, ?_, ?_, ?_, ?_⟩ <;> intros <;> simp_all [keypair_from_pkcs8]

/-- Witness for C5 at concrete parsers: when every parser succeeds the
Ed25519 one wins, and when every parser fails the import errors. -/
theorem keypair_import_order_witness :
    keypair_from_pkcs8 (fun _ => some 1) (fun _ => some 2) (fun _ => some 3)
      (fun _ => some 4) [9] = .ok (.EdKp 1 [9]) ∧
    keypair_from_pkcs8 (fun _ => (none : Option Nat)) (fun _ => (none : Option Nat))
      (fun _ => (none : Option Nat)) (fun _ => (none : Option Nat)) [9] =
      .error "Could not parse key pair" :=
  ⟨(keypair_import_order _ _ _ _ _).1 1 rfl,
   (keypair_import_order _ _ _ _ _).2.2.2.2 rfl rfl rfl rfl⟩

/-- C6: with `is_ca = Ca(Constrained(k))` the extensions carry a Basic
Constraints value SEQUENCE(boolean true, integer k) preceded by a Subject
Key Identifier whose value is the digest of the raw public-key bytes under
the algorithm's digest function; with `Ca(Unconstrained)` the Basic
Constraints value holds only boolean true; with `SelfSignedOnly` neither
extension is emitted. -/
theorem ca_extensions_spec (self ca : Certificate) :
    match self.params.is_ca with
    | IsCa.SelfSignedOnly =>
      extensionsOf (Certificate.write_cert self ca) =
        .seq [.oid [2, 5, 29, 17],
          .octets (encode (.seq (self.params.subject_alt_names.map (fun san =>
            DerValue.taggedImplicit 2 (.utf8 (strBytes san))))))] ::
        self.params.custom_extensions.map (fun ext =>
          .seq (.oid ext.oid :: ((if ext.critical then [.boolean true] else []) ++
            [.octets ext.content])))
    | IsCa.Ca c =>
      extensionsOf (Certificate.write_cert self ca) =
        .seq [.oid [2, 5, 29, 17],
          .octets (encode (.seq (self.params.subject_alt_names.map (fun san =>
            DerValue.taggedImplicit 2 (.utf8 (strBytes san))))))] ::
        .seq [.oid [2, 5, 29, 14],
          .octets (self.params.alg.digest_alg self.key_pair.public_key)] ::
        .seq [.oid [2, 5, 29, 19],
          .octets (encode (.seq (.boolean true ::
            (match c with
             | BasicConstraints.Constrained k => [.int k]
             | BasicConstraints.Unconstrained => []))))] ::
        self.params.custom_extensions.map (fun ext =>
          .seq (.oid ext.oid :: ((if ext.critical then [.boolean true] else []) ++
            [.octets ext.content]))) := by
  cases hca : self.params.is_ca with
  | SelfSignedOnly =>
    simp [extensionsOf, Certificate.write_cert, hca, OID_SUBJECT_ALT_NAME]
  | Ca c =>
    simp [extensionsOf, Certificate.write_cert, hca, OID_SUBJECT_ALT_NAME,
      OID_SUBJECT_KEY_IDENTIFIER, OID_BASIC_CONSTRAINTS]

/-- C7: the extension list always starts with the Subject Alternative Name
extension (OID 2.5.29.17) whose value octets are the DER encoding of a
SEQUENCE holding one implicitly-tagged (context 2) UTF-8 dNSName per
subject-alt-name string, in list order — exactly N entries for N strings,
an empty SEQUENCE for an empty list. -/
theorem san_extension_spec (self ca : Certificate) :
    (extensionsOf (Certificate.write_cert self ca)).head? =
      some (.seq [.oid [2, 5, 29, 17],
        .octets (encode (.seq (self.params.subject_alt_names.map (fun san =>
          DerValue.taggedImplicit 2 (.utf8 (strBytes san))))))]) ∧
    (self.params.subject_alt_names.map (fun san =>
      DerValue.taggedImplicit 2 (.utf8 (strBytes san)))).length =
      self.params.subject_alt_names.length :=
  ⟨rfl, by simp⟩

/-- C8: each custom extension is encoded, in declared order after the
built-in extensions, as SEQUENCE(OID, boolean true only when critical,
content OCTET STRING); a non-critical extension omits the criticality
field entirely, and boolean false is never written. -/
theorem custom_extensions_spec (self ca : Certificate) :
    (∃ built_in, extensionsOf (Certificate.write_cert self ca) =
      built_in ++ self.params.custom_extensions.map (fun ext =>
        .seq (.oid ext.oid :: ((if ext.critical then [.boolean true] else []) ++
          [.octets ext.content])))) ∧
    (∀ ext : CustomExtension,
      (DerValue.oid ext.oid :: ((if ext.critical then [.boolean true] else []) ++
        [.octets ext.content])) =
      if ext.critical then [.oid ext.oid, .boolean true, .octets ext.content]
      else [.oid ext.oid, .octets ext.content]) ∧
    (∀ ext : CustomExtension,
      DerValue.boolean false ∉
        (DerValue.oid ext.oid :: ((if ext.critical then [.boolean true] else []) ++
          [.octets ext.content]))) := by
  refine ⟨⟨DerValue.seq [.oid OID_SUBJECT_ALT_NAME,
      .octets (encode (.seq (self.params.subject_alt_names.map (fun san =>
        DerValue.taggedImplicit 2 (.utf8 (strBytes san))))))] ::
      (match self.params.is_ca with
       | IsCa.Ca constraint =>
         [.seq [.oid OID_SUBJECT_KEY_IDENTIFIER,
                .octets (self.params.alg.digest_alg self.key_pair.public_key)],
          .seq [.oid OID_BASIC_CONSTRAINTS,
                .octets (encode (.seq (.boolean true ::
                  (match constraint with
                   | BasicConstraints.Constrained path_len => [.int path_len]
                   | BasicConstraints.Unconstrained => []))))]]
       | IsCa.SelfSignedOnly => []), rfl⟩, ?_, ?_⟩
  · intro ext
    cases hc : ext.critical <;> simp [hc]
  · intro ext
    cases hc : ext.critical <;> simp [hc]

/-- C9: the ACME tls-alpn-01 extension helper accepts a digest of exactly
32 bytes, producing the critical acmeIdentifier extension whose content is
the digest as an OCTET STRING, and fails for every input whose length is
not exactly 32 bytes, producing no extension value. -/
theorem acme_identifier_spec (sha_digest : List Nat) :
    (sha_digest.length = 32 →
      CustomExtension.new_acme_identifier sha_digest =
        some { oid := [1, 3, 6, 1, 5, 5, 7, 1, 31], critical := true,
               content := encode (.octets sha_digest) }) ∧
    (sha_digest.length ≠ 32 →
      CustomExtension.new_acme_identifier sha_digest = none) := by
  constructor <;> intro h <;>
    simp [CustomExtension.new_acme_identifier, OID_PE_ACME, h]

/-- Witness for C9: a 32-byte digest is accepted, a 3-byte one rejected. -/
theorem acme_identifier_spec_witness :
    CustomExtension.new_acme_identifier (List.replicate 32 0) =
      some { oid := [1, 3, 6, 1, 5, 5, 7, 1, 31], critical := true,
             content := encode (.octets (List.replicate 32 0)) } ∧
    CustomExtension.new_acme_identifier [1, 2, 3] = none :=
  ⟨(acme_identifier_spec _).1 (by simp),
   (acme_identifier_spec _).2 (by simp)⟩

/-- C10: both the AlgorithmIdentifier inside the TBS certificate and the
outer signatureAlgorithm identifier of `serialize_der_with_signer(ca)`
come from the leaf certificate's own declared algorithm, while the
signature itself is produced by `ca`'s key; `ca`'s algorithm is never
consulted — any issuer with the same distinguished name and key pair
yields the same output regardless of its declared algorithm. -/
theorem signer_alg_never_consulted (self ca : Certificate) :
    Certificate.serialize_der_with_signer self ca =
      encode (.seq [
        .raw (encode (Certificate.write_cert self ca)),
        self.params.alg.write_alg_ident,
        .bitstr (ca.key_pair.sign (encode (Certificate.write_cert self ca)))]) ∧
    tbsAlgIdentOf (Certificate.write_cert self ca) =
      self.params.alg.write_alg_ident ∧
    (∀ ca2 : Certificate,
      ca2.params.distinguished_name = ca.params.distinguished_name →
      ca2.key_pair = ca.key_pair →
      Certificate.serialize_der_with_signer self ca2 =
        Certificate.serialize_der_with_signer self ca) := by
  refine ⟨rfl, rfl, ?_⟩
  intro ca2 hdn hkp
  simp [Certificate.serialize_der_with_signer, Certificate.write_cert,
    Certificate.write_name, hdn, hkp]

/-- Witness for C10: the ECDSA-shaped and RSA-shaped issuer certificates
share a distinguished name and key pair, so the leaf serializes
identically under either, and the TBS identifier is the leaf's own. -/
theorem signer_alg_never_consulted_witness :
    Certificate.serialize_der_with_signer certDemo certDemo =
      Certificate.serialize_der_with_signer certDemo certDemoB ∧
    tbsAlgIdentOf (Certificate.write_cert certDemo certDemoB) =
      certDemo.params.alg.write_alg_ident :=
  ⟨((signer_alg_never_consulted certDemo certDemoB).2.2 certDemo rfl rfl).symm,
   (signer_alg_never_consulted certDemo certDemoB).2.1⟩


